import Mathlib

/-!
Verification development for the FlareMail account-management frontend
(`src/components/EmailManagement.tsx`, `src/components/About.tsx`).
The TypeScript component logic is shallowly embedded: React state updates
become explicit state-record transformations, asynchronous calls become
explicit outcome parameters (`Except`), and the interleaving of two
concurrent `handleOpenMailbox` invocations is modelled as a merge of their
atomic segments (code between `await` suspension points).
-/

namespace FlareMail

/-- The two-value folder taxonomy (`type MailFolder = 'INBOX' | 'JUNK'`). -/
inductive MailFolder where
  | INBOX
  | JUNK
deriving DecidableEq

/-- Structure `EmailAccount` from `src/types.ts`. -/
structure EmailAccount where
  id : Nat
  email : String
  password : String
  mail_type : String
  client_id : String
  refresh_token : String
deriving DecidableEq

/-- Structure `MailRecord` from `src/types.ts`; optional fields are `Option`. -/
structure MailRecord where
  id : Nat
  email_id : Nat
  subject : Option String
  sender : Option String
  received_time : Option String
  content : Option String
  folder : Option String
  has_attachments : Nat
deriving DecidableEq

/-- Character-list prefix test (used to embed JS `String.prototype.includes`). -/
def isPrefixChars : List Char → List Char → Bool
  | [], _ => true
  | _ :: _, [] => false
  | p :: ps, c :: cs => p == c && isPrefixChars ps cs

/-- Substring containment on character lists: `containsSub pat s` holds iff
`pat` occurs contiguously in `s` (JS `s.includes(pat)`). -/
def containsSub (pat : List Char) : List Char → Bool
  | [] => pat.isEmpty
  | c :: cs => isPrefixChars pat (c :: cs) || containsSub pat cs

/-- Whitespace trimming on both ends (JS `String.prototype.trim`, modelled
with Lean's `Char.isWhitespace`). -/
def trimChars (l : List Char) : List Char :=
  ((l.dropWhile Char.isWhitespace).reverse.dropWhile Char.isWhitespace).reverse

/-- Function `normalizeFolder` from `EmailManagement.tsx` (lines 246-258): `undefined`
or the empty string (JS falsiness of `!folder`) give `INBOX`; otherwise the
label is trimmed and lower-cased and checked for the substrings
`junk`, `spam` and the localized junk term. -/
def normalizeFolder : Option String → MailFolder
  | none => .INBOX
  | some f =>
    if f.data.isEmpty then .INBOX
    else
      let normalized := (trimChars f.data).map Char.toLower
      if containsSub "junk".data normalized || containsSub "spam".data normalized
          || containsSub "垃圾".data normalized then .JUNK
      else .INBOX

/-- Classification rule as the specification words it: trim, lower-case,
check for the junk substrings, default `INBOX` (also for null/empty). -/
def classifyFolderSpec : Option String → MailFolder
  | none => .INBOX
  | some s =>
    let normalized := (trimChars s.data).map Char.toLower
    if containsSub "junk".data normalized || containsSub "spam".data normalized
        || containsSub "垃圾".data normalized then .JUNK
    else .INBOX

/-- Function `filterMailRecordsByFolder` from `EmailManagement.tsx` (line 260). -/
def filterMailRecordsByFolder (records : List MailRecord) (folder : MailFolder) :
    List MailRecord :=
  records.filter (fun record => normalizeFolder record.folder == folder)

/-- One entry of the pagination strip: a page number or the ellipsis marker. -/
inductive PageItem where
  | page (n : Nat)
  | ellipsis
deriving DecidableEq

/-- Function `buildPageItems` from `EmailManagement.tsx` (lines 387-401), translated
branch by branch (`current >= total - 2` becomes `total - 2 ≤ current`). -/
def buildPageItems (total current : Nat) : List PageItem :=
  if total ≤ 7 then
    (List.range total).map (fun index => PageItem.page (index + 1))
  else if current ≤ 3 then
    [.page 1, .page 2, .page 3, .page 4, .ellipsis, .page total]
  else if total - 2 ≤ current then
    [.page 1, .ellipsis, .page (total - 3), .page (total - 2), .page (total - 1), .page total]
  else
    [.page 1, .ellipsis, .page (current - 1), .page current, .page (current + 1), .ellipsis,
      .page total]

/-- The page-window algorithm as the specification words it: `[1..totalPages]`
when `totalPages ≤ 7`, else the three ellipsis branches. -/
def buildPageWindowSpec (total current : Nat) : List PageItem :=
  if total ≤ 7 then
    (List.range' 1 total).map PageItem.page
  else if current ≤ 3 then
    [.page 1, .page 2, .page 3, .page 4, .ellipsis, .page total]
  else if total - 2 ≤ current then
    [.page 1, .ellipsis, .page (total - 3), .page (total - 2), .page (total - 1), .page total]
  else
    [.page 1, .ellipsis, .page (current - 1), .page current, .page (current + 1), .ellipsis,
      .page total]

/-- The mail-viewer React state slice of `EmailManagement` that the mailbox
session claims talk about. -/
structure SessionState where
  mailViewerOpen : Bool
  mailViewerEmail : Option EmailAccount
  mailViewerFolder : MailFolder
  mailViewerRecords : List MailRecord
  mailViewerLoading : Bool
deriving DecidableEq

/-- The synchronous head of `handleOpenMailbox` (lines 277-281): record the
account and folder, clear previous records, open the viewer, set loading. -/
def openStart (st : SessionState) (account : EmailAccount) (folder : MailFolder) :
    SessionState :=
  { st with
      mailViewerEmail := some account
      mailViewerFolder := folder
      mailViewerRecords := []
      mailViewerOpen := true
      mailViewerLoading := true }

/-- Step `setMailViewerLoading(true)` at the head of `loadMailViewerRecords`. -/
def beginLoad (st : SessionState) : SessionState :=
  { st with mailViewerLoading := true }

/-- The completion of `loadMailViewerRecords` (lines 266-273): on success the
fetched records are filtered by folder and stored; on failure (`catch`) the
records are set to the empty list; the `finally` block clears loading. -/
def loadFinish (folder : MailFolder) (result : Except String (List MailRecord))
    (st : SessionState) : SessionState :=
  match result with
  | .ok records =>
      { st with
          mailViewerRecords := filterMailRecordsByFolder records folder
          mailViewerLoading := false }
  | .error _ =>
      { st with mailViewerRecords := [], mailViewerLoading := false }

/-- Function `loadMailViewerRecords` (lines 263-274) as a whole, with the outcome of
`invoke('get_mail_records')` passed explicitly.  It is a total function into
`SessionState`: no rejection escapes to the caller. -/
def loadMailViewerRecords (st : SessionState) (folder : MailFolder)
    (result : Except String (List MailRecord)) : SessionState :=
  loadFinish folder result (beginLoad st)

/-- Function `handleOpenMailbox` (lines 276-293) run to completion: open-state commit,
then the sync call whose outcome is swallowed by the `catch` block (it only
logs), then the load of cached records. -/
def handleOpenMailbox (st : SessionState) (account : EmailAccount) (folder : MailFolder)
    (syncResult : Except String Unit) (loadResult : Except String (List MailRecord)) :
    SessionState :=
  let st1 := openStart st account folder
  let st2 :=
    match syncResult with
    | .ok _ => st1
    | .error _ => st1
  loadMailViewerRecords st2 folder loadResult

deriving instance DecidableEq for Except

/-- Atomic steps of one `handleOpenMailbox` invocation.  `issueSync` and
`issueLoad` mark the issuing of the two external calls; they do not change
the React state. -/
inductive OpenStep where
  | commitOpen (account : EmailAccount) (folder : MailFolder)
  | issueSync (accountId : Nat) (folder : MailFolder)
  | beginLoadStep
  | issueLoad (accountId : Nat)
  | commitLoad (folder : MailFolder) (result : Except String (List MailRecord))
deriving DecidableEq

/-- State effect of one atomic step. -/
def applyStep : OpenStep → SessionState → SessionState
  | .commitOpen account folder, st => openStart st account folder
  | .issueSync _ _, st => st
  | .beginLoadStep, st => beginLoad st
  | .issueLoad _, st => st
  | .commitLoad folder result, st => loadFinish folder result st

/-- One `handleOpenMailbox` invocation cut at its `await` suspension points:
segment 1 runs until the sync call is awaited, segment 2 resumes after the
sync resolves and runs until the record fetch is awaited, segment 3 commits
the fetched records.  Each segment executes atomically on the single
cooperative thread. -/
def openSegments (account : EmailAccount) (folder : MailFolder)
    (loadResult : Except String (List MailRecord)) : List (List OpenStep) :=
  [[.commitOpen account folder, .issueSync account.id folder],
   [.beginLoadStep, .issueLoad account.id],
   [.commitLoad folder loadResult]]

/-- Run a list of atomic steps from a state. -/
def runSteps (steps : List OpenStep) (st : SessionState) : SessionState :=
  steps.foldl (fun s a => applyStep a s) st

/-- Merge the segment lists of two concurrent invocations under a schedule:
`true` runs the first pending segment of the first invocation, `false` of the
second.  Each invocation's segments stay in program order. -/
def interleaveSegs : List Bool → List (List OpenStep) → List (List OpenStep) →
    List OpenStep
  | [], _, _ => []
  | true :: sch, seg :: rest, other => seg ++ interleaveSegs sch rest other
  | true :: sch, [], other => interleaveSegs sch [] other
  | false :: sch, first, seg :: rest => seg ++ interleaveSegs sch first rest
  | false :: sch, first, [] => interleaveSegs sch first []

/-- The account-list React state slice of `EmailManagement` (ids of the
accounts, the selection, the page, the query). -/
structure DirectoryState where
  emails : List Nat
  selectedIds : List Nat
  currentPage : Nat
  searchQuery : String
deriving DecidableEq

/-- Function `handleDelete` (lines 308-316): the backend delete plus the `loadEmails`
refresh remove the account from the list; `selectedIds` is not touched. -/
def handleDelete (st : DirectoryState) (deletedId : Nat) : DirectoryState :=
  { st with emails := st.emails.filter (fun i => decide (i ≠ deletedId)) }

/-- Function `handleBatchDelete` (lines 318-328): every selected id is deleted, then
`setSelectedIds([])` clears the selection and the list is refreshed. -/
def handleBatchDelete (st : DirectoryState) : DirectoryState :=
  { st with
      emails := st.emails.filter (fun i => decide (i ∉ st.selectedIds))
      selectedIds := [] }

/-- Setter `setCurrentPage`: page navigation; no other state is touched. -/
def setCurrentPage (st : DirectoryState) (p : Nat) : DirectoryState :=
  { st with currentPage := p }

/-- Setter `setSearchQuery` together with the effect that resets the page to 1;
the selection is not touched. -/
def setSearchQuery (st : DirectoryState) (q : String) : DirectoryState :=
  { st with searchQuery := q, currentPage := 1 }

/-- Function `toggleSelect` (lines 343-349): remove the id when present, append it
otherwise. -/
def toggleSelect (selectedIds : List Nat) (id : Nat) : List Nat :=
  if id ∈ selectedIds then selectedIds.filter (fun i => decide (i ≠ id))
  else selectedIds ++ [id]

/-- Order-preserving, first-occurrence deduplication, the behaviour of
JS `Array.from(new Set(list))`. -/
def jsSetDedupAux (seen : List Nat) : List Nat → List Nat
  | [] => []
  | x :: xs =>
    if x ∈ seen then jsSetDedupAux seen xs
    else x :: jsSetDedupAux (x :: seen) xs

/-- Embedding of `Array.from(new Set(list))`. -/
def jsSetDedup (l : List Nat) : List Nat := jsSetDedupAux [] l

/-- Function `handleSelectAll` (lines 330-341): a no-op for an empty page; when
checking, union the page ids into the selection via a JS `Set`; when
unchecking, filter the page ids out. -/
def handleSelectAll (checked : Bool) (ids : List Nat) (prev : List Nat) : List Nat :=
  if ids.isEmpty then prev
  else if checked then jsSetDedup (prev ++ ids)
  else prev.filter (fun id => decide (id ∉ ids))

/-- The toast React state slice of `About.tsx`: the visible message, the
animation key, the pending auto-dismiss timer (its delay, `none` when no
timer is installed) and the contextual update payload
`(version, downloadUrl)`. -/
structure ToastState where
  toastMessage : Option String
  toastId : Nat
  pendingTimer : Option Nat
  updateInfo : Option (String × String)
deriving DecidableEq

/-- Function `showToast` from `About.tsx` (lines 58-72): set the message, bump the
animation key, cancel any pending timer, and install a fresh timer exactly
when `duration > 0`. -/
def showToast (st : ToastState) (message : String) (duration : Nat) : ToastState :=
  { st with
      toastMessage := some message
      toastId := st.toastId + 1
      pendingTimer := if 0 < duration then some duration else none }

/-- Function `dismissToast` from `About.tsx`: cancel the timer, clear the message and
the update payload. -/
def dismissToast (st : ToastState) : ToastState :=
  { st with toastMessage := none, updateInfo := none, pendingTimer := none }

/-- The auto-dismiss timer callback in `showToast`: clear the message and the
update payload and forget the timer. -/
def toastTimerFire (st : ToastState) : ToastState :=
  { st with toastMessage := none, updateInfo := none, pendingTimer := none }

/-- The argument object that `handleBatchImport` (lines 203-223) passes to
`invoke('import_emails', { input: content })`: only the raw content is
supplied; no separator key is present (`separatorArg := none`), even though
the component holds a configured `separator` state at that moment. -/
structure ImportInvokeArgs where
  input : String
  separatorArg : Option String
deriving DecidableEq

/-- The payload construction of `handleBatchImport` as a function of the
configured separator state and the raw content. -/
def handleBatchImportArgs (configuredSeparator content : String) : ImportInvokeArgs :=
  { input := content, separatorArg := none }

/-- Account used as the first open-mailbox caller in the stale-load scenario. -/
def accountA : EmailAccount := ⟨1, "a@x.com", "p1", "outlook", "cid1", "rt1"⟩

/-- Account used as the second open-mailbox caller in the stale-load scenario. -/
def accountB : EmailAccount := ⟨2, "b@x.com", "p2", "outlook", "cid2", "rt2"⟩

/-- An inbox record of `accountA` (no folder label classifies as INBOX). -/
def inboxRecordA : MailRecord := ⟨1, 1, none, none, none, none, none, 0⟩

/-- A junk record of `accountB` (label `Junk` classifies as JUNK). -/
def junkRecordB : MailRecord := ⟨2, 2, none, none, none, none, some "Junk", 0⟩

/-- The session state before any mailbox is opened. -/
def closedSession : SessionState := ⟨false, none, .INBOX, [], false⟩

/-- The interleaving in which `open(accountA, INBOX)` suspends awaiting its
sync call, `open(accountB, JUNK)` then runs to completion, and finally
`accountA`'s sync resolves and its load runs and commits last. -/
def staleFinalState : SessionState :=
  runSteps
    (interleaveSegs [true, false, false, false, true, true]
      (openSegments accountA .INBOX (.ok [inboxRecordA]))
      (openSegments accountB .JUNK (.ok [junkRecordB])))
    closedSession

/-- Auxiliary: elements produced by `jsSetDedupAux` never come from `seen`. -/
theorem jsSetDedupAux_mem_not_seen :
    ∀ (l seen : List Nat) (x : Nat), x ∈ jsSetDedupAux seen l → x ∉ seen := by
  intro l
  induction l with
  | nil => intro seen x hx; simp [jsSetDedupAux] at hx
  | cons y ys ih =>
    intro seen x hx
    by_cases hy : y ∈ seen
    · rw [jsSetDedupAux, if_pos hy] at hx
      exact ih seen x hx
    · rw [jsSetDedupAux, if_neg hy] at hx
      rcases List.mem_cons.mp hx with hxy | hx'
      · subst hxy; exact hy
      · intro hxs
        exact ih (y :: seen) x hx' (List.mem_cons_of_mem y hxs)

/-- Auxiliary: `jsSetDedupAux` always produces a duplicate-free list. -/
theorem jsSetDedupAux_nodup : ∀ (l seen : List Nat), (jsSetDedupAux seen l).Nodup := by
  intro l
  induction l with
  | nil => intro seen; simp [jsSetDedupAux]
  | cons y ys ih =>
    intro seen
    by_cases hy : y ∈ seen
    · rw [jsSetDedupAux, if_pos hy]
      exact ih seen
    · rw [jsSetDedupAux, if_neg hy]
      refine List.nodup_cons.mpr ⟨?_, ih (y :: seen)⟩
      intro hmem
      exact jsSetDedupAux_mem_not_seen ys (y :: seen) y hmem (List.mem_cons_self y seen)

/-- Embedding of `Array.from(new Set(list))` yields a duplicate-free list. -/
theorem jsSetDedup_nodup (l : List Nat) : (jsSetDedup l).Nodup :=
  jsSetDedupAux_nodup l []

/-- The source's 1-based page list agrees with the spec's `[1..totalPages]`. -/
theorem pageRange_eq (n : Nat) :
    (List.range n).map (fun index => PageItem.page (index + 1)) =
      (List.range' 1 n).map PageItem.page := by
  rw [List.range'_eq_map_range, List.map_map]
  exact List.map_congr_left (fun a _ => by simp [Nat.add_comm])

/-- Claim C7: the folder classifier is a total deterministic function from a
possibly-null raw folder string to `{INBOX, JUNK}`; after trimming and
lower-casing, any input containing `junk`, `spam` or the localized junk term
maps to `JUNK`, and every other input (including null and the empty string)
maps to `INBOX`. -/
theorem normalizeFolder_total_classification :
    (∀ f, normalizeFolder f = classifyFolderSpec f) ∧
    (∀ f, normalizeFolder f = .INBOX ∨ normalizeFolder f = .JUNK) ∧
    normalizeFolder none = .INBOX ∧ normalizeFolder (some "") = .INBOX := by
  refine ⟨?_, ?_, rfl, by decide⟩
  · intro f
    cases f with
    | none => rfl
    | some s =>
      obtain ⟨l⟩ := s
      by_cases hs : l.isEmpty
      · have hd : l = [] := by simpa [List.isEmpty_iff] using hs
        subst hd
        decide
      · simp only [normalizeFolder, classifyFolderSpec, hs, Bool.false_eq_true,
          if_false, if_neg]
  · intro f
    cases f with
    | none => exact Or.inl rfl
    | some s =>
      simp only [normalizeFolder]
      split
      · exact Or.inl rfl
      · split
        · exact Or.inr rfl
        · exact Or.inl rfl

/-- Claim C3: for `1 ≤ currentPage ≤ totalPages`, `buildPageItems` computes
exactly the four-branch page window of the specification, with the three
concrete examples `(10,1)`, `(10,9)`, `(10,5)` and the no-ellipsis guarantee
for `totalPages ≤ 7`. -/
theorem buildPageItems_matches_spec (total current : Nat)
    (h1 : 1 ≤ total) (h2 : 1 ≤ current) (h3 : current ≤ total) :
    buildPageItems total current = buildPageWindowSpec total current ∧
    (total ≤ 7 → (buildPageItems total current).length = total ∧
      PageItem.ellipsis ∉ buildPageItems total current) ∧
    buildPageItems 10 1 = [.page 1, .page 2, .page 3, .page 4, .ellipsis, .page 10] ∧
    buildPageItems 10 9 = [.page 1, .ellipsis, .page 7, .page 8, .page 9, .page 10] ∧
    buildPageItems 10 5 =
      [.page 1, .ellipsis, .page 4, .page 5, .page 6, .ellipsis, .page 10] := by
  refine ⟨?_, ?_, by decide, by decide, by decide⟩
  · by_cases h7 : total ≤ 7
    · simp only [buildPageItems, buildPageWindowSpec, if_pos h7]
      exact pageRange_eq total
    · simp only [buildPageItems, buildPageWindowSpec, if_neg h7]
  · intro h7
    constructor
    · simp [buildPageItems, if_pos h7]
    · simp [buildPageItems, if_pos h7, List.mem_map]

/-- Witness for C3 at `totalPages = 10`, `currentPage = 5`. -/
theorem buildPageItems_matches_spec_witness :
    (1 ≤ 10 ∧ 1 ≤ 5 ∧ 5 ≤ 10) ∧
    (buildPageItems 10 5 = buildPageWindowSpec 10 5 ∧
      (10 ≤ 7 → (buildPageItems 10 5).length = 10 ∧
        PageItem.ellipsis ∉ buildPageItems 10 5) ∧
      buildPageItems 10 1 = [.page 1, .page 2, .page 3, .page 4, .ellipsis, .page 10] ∧
      buildPageItems 10 9 = [.page 1, .ellipsis, .page 7, .page 8, .page 9, .page 10] ∧
      buildPageItems 10 5 =
        [.page 1, .ellipsis, .page 4, .page 5, .page 6, .ellipsis, .page 10]) :=
  ⟨by decide, buildPageItems_matches_spec 10 5 (by decide) (by decide) (by decide)⟩

/-- Claim C4: a failed load leaves an empty record list with `loading = false`,
and every resolution of the load (success or failure) ends with
`loading = false`; the embedded `loadMailViewerRecords` is a total function
into `SessionState`, reflecting that no rejection propagates to the caller. -/
theorem loadMailViewerRecords_error_handling
    (st : SessionState) (folder : MailFolder) (e : String) (records : List MailRecord) :
    (loadMailViewerRecords st folder (.error e)).mailViewerLoading = false ∧
    (loadMailViewerRecords st folder (.error e)).mailViewerRecords = [] ∧
    (loadMailViewerRecords st folder (.ok records)).mailViewerLoading = false :=
  ⟨rfl, rfl, rfl⟩

/-- Claim C5: a failed remote sync produces exactly the state a successful
sync would produce — the load still runs and the session ends not loading
(READY). -/
theorem handleOpenMailbox_sync_best_effort
    (st : SessionState) (account : EmailAccount) (folder : MailFolder) (e : String)
    (loadResult : Except String (List MailRecord)) :
    handleOpenMailbox st account folder (.error e) loadResult =
      handleOpenMailbox st account folder (.ok ()) loadResult ∧
    (handleOpenMailbox st account folder (.error e) loadResult).mailViewerLoading = false :=
  ⟨rfl, by cases loadResult <;> rfl⟩

/-- Claim C6: the synchronous head of `open` already clears the records, sets
`loading = true` and records the chosen account and folder; in the step trace
the open-state commit precedes the sync issuance, which precedes the load
issuance; and running the trace coincides with `handleOpenMailbox`. -/
theorem handleOpenMailbox_open_state_and_ordering
    (st : SessionState) (account : EmailAccount) (folder : MailFolder)
    (syncResult : Except String Unit) (loadResult : Except String (List MailRecord)) :
    (openStart st account folder).mailViewerRecords = [] ∧
    (openStart st account folder).mailViewerLoading = true ∧
    (openStart st account folder).mailViewerEmail = some account ∧
    (openStart st account folder).mailViewerFolder = folder ∧
    (openSegments account folder loadResult).flatten =
      [OpenStep.commitOpen account folder, OpenStep.issueSync account.id folder,
        OpenStep.beginLoadStep, OpenStep.issueLoad account.id,
        OpenStep.commitLoad folder loadResult] ∧
    handleOpenMailbox st account folder syncResult loadResult =
      runSteps (openSegments account folder loadResult).flatten st :=
  ⟨rfl, rfl, rfl, rfl, rfl, by cases syncResult <;> rfl⟩

/-- Claim C1 (refuted on the code): `loadMailViewerRecords` commits its result
without any identity check against the active `(account, folder)` pair.  In
the interleaving where `open(accountA, INBOX)` suspends awaiting its sync,
`open(accountB, JUNK)` runs to completion, and `accountA`'s stale load
completes last, the final visible state shows account B and folder JUNK but
holds account A's INBOX records — a stale completion is committed. -/
theorem staleLoad_commit_not_guarded :
    staleFinalState.mailViewerEmail = some accountB ∧
    staleFinalState.mailViewerFolder = .JUNK ∧
    staleFinalState.mailViewerRecords = [inboxRecordA] ∧
    filterMailRecordsByFolder [junkRecordB] .JUNK = [junkRecordB] ∧
    ([inboxRecordA] : List MailRecord) ≠ [junkRecordB] := by decide

/-- Counterexample to claim C2 as stated: in a directory with accounts 3 and 7
both selected, the single-account delete of account 3 removes it from the
account list but leaves 3 in the selection set. -/
theorem handleDelete_keeps_deleted_id_selected :
    3 ∈ ((⟨[3, 7], [3, 7], 1, ""⟩ : DirectoryState)).selectedIds ∧
    3 ∈ (handleDelete ⟨[3, 7], [3, 7], 1, ""⟩ 3).selectedIds ∧
    3 ∉ (handleDelete ⟨[3, 7], [3, 7], 1, ""⟩ 3).emails := by decide

/-- Claim C2 as amended: the batch delete clears the selection set (removing
every selected id); the single-account delete leaves the selection set
unchanged (so a deleted id is not removed by it); and neither page navigation
nor a search-query change touches the selection set. -/
theorem selection_delete_and_persistence
    (st : DirectoryState) (id p : Nat) (q : String) :
    (handleBatchDelete st).selectedIds = [] ∧
    (handleDelete st id).selectedIds = st.selectedIds ∧
    (setCurrentPage st p).selectedIds = st.selectedIds ∧
    (setSearchQuery st q).selectedIds = st.selectedIds :=
  ⟨rfl, rfl, rfl, rfl⟩

/-- Claim C8: `showToast` replaces the visible message (the single-slot state
holds at most one message) and cancels any pending timer, installing a fresh
one exactly when the duration is positive; in particular `show("X", 2000)`
immediately followed by `show("Y", 0)` leaves only `Y` visible with no
pending auto-dismiss timer. -/
theorem showToast_replacement_policy (st : ToastState) (m : String) (d : Nat) :
    (showToast st m d).toastMessage = some m ∧
    (showToast st m d).pendingTimer = (if 0 < d then some d else none) ∧
    (showToast (showToast st "X" 2000) "Y" 0).toastMessage = some "Y" ∧
    (showToast (showToast st "X" 2000) "Y" 0).pendingTimer = none :=
  ⟨rfl, rfl, rfl, by simp [showToast]⟩

/-- Counterexample to claim C9 as stated: with the separator configured to
`||` the import invocation for a `||`-separated line carries no separator at
all — the configured value is not the one supplied to the parsing step. -/
theorem importArgs_separator_not_supplied :
    (handleBatchImportArgs "||" "a@b.com||pw||cid||rt").separatorArg = none ∧
    (handleBatchImportArgs "||" "a@b.com||pw||cid||rt").separatorArg ≠ some "||" ∧
    (handleBatchImportArgs "||" "a@b.com||pw||cid||rt").input = "a@b.com||pw||cid||rt" :=
  ⟨rfl, by decide, rfl⟩

/-- Claim C9 as amended: every import invocation supplies only the raw input
content to the parsing step; the configured separator value is never part of
the invocation, so the supplied arguments are independent of it. -/
theorem importArgs_independent_of_separator (sep sep' content : String) :
    handleBatchImportArgs sep content = handleBatchImportArgs sep' content ∧
    (handleBatchImportArgs sep content).separatorArg = none ∧
    (handleBatchImportArgs sep content).input = content :=
  ⟨rfl, rfl, rfl⟩

/-- Claim C10: starting from a duplicate-free selection, the single toggle,
select-all-on-page, deselect-all-on-page and the clear performed by the batch
delete all yield a duplicate-free selection. -/
theorem selection_ops_preserve_nodup
    (prev : List Nat) (id : Nat) (checked : Bool) (ids : List Nat) (st : DirectoryState)
    (h : prev.Nodup) :
    (toggleSelect prev id).Nodup ∧
    (handleSelectAll checked ids prev).Nodup ∧
    ((handleBatchDelete st).selectedIds).Nodup := by
  refine ⟨?_, ?_, List.nodup_nil⟩
  · unfold toggleSelect
    by_cases hm : id ∈ prev
    · simp only [if_pos hm]
      exact List.Nodup.filter _ h
    · simp only [if_neg hm]
      exact h.append (List.nodup_singleton id) (List.disjoint_singleton.mpr hm)
  · unfold handleSelectAll
    by_cases he : ids.isEmpty
    · simp only [if_pos he]
      exact h
    · cases checked with
      | false =>
        simp only [if_neg he, Bool.false_eq_true, if_false]
        exact List.Nodup.filter _ h
      | true =>
        simp only [if_neg he, if_true]
        exact jsSetDedup_nodup (prev ++ ids)

/-- Witness for C10 at a concrete duplicate-free selection. -/
theorem selection_ops_preserve_nodup_witness :
    ([3, 7] : List Nat).Nodup ∧
    ((toggleSelect [3, 7] 5).Nodup ∧
      (handleSelectAll true [7, 9] [3, 7]).Nodup ∧
      ((handleBatchDelete ⟨[3, 7], [3, 7], 1, ""⟩).selectedIds).Nodup) :=
  ⟨by decide,
    selection_ops_preserve_nodup [3, 7] 5 true [7, 9] ⟨[3, 7], [3, 7], 1, ""⟩ (by decide)⟩

end FlareMail
